import Mathlib

/-!
Verification of the NebulaPrime supervisory node (`src/nebula.py`).

The supervisor guards an opaque cryptographic engine ("vault core").  We give a
shallow embedding of the class `NebulaPrime`: its mutable attributes become the
fields of `NebulaState`, each method becomes a pure function returning the new
state together with a trace of side-effect events (log lines, attribute
mutations, process exit) in the order the Python statements execute them.  The
external vault core is an injected function `vault : List Nat → List Nat →
VaultOutcome` (bytes are modeled as `List Nat`); process termination `exit(x)`
is modeled symbolically by the argument passed to `exit` (`ExitArg.code 1` for
the fatal-config path, `ExitArg.msg "NODE_LOCKED"` for the kill switch, normal
return for an ordinary shutdown).
-/

/-- The argument passed to Python `exit`: `exit(1)` vs `exit("NODE_LOCKED")`.
An ordinary successful return corresponds to process status 0 (`code 0`). -/
inductive ExitArg where
  | code (n : Nat)
  | msg (s : String)
  deriving Repr, DecidableEq

/-- Side-effect events, in the order the Python statements produce them. -/
inductive Event where
  | logInfo (m : String)
  | logWarning (m : String)
  | logCritical (m : String)
  | printFatal (m : String)
  | setInactive
  | releaseEngine
  | clearConfig
  | gcCollect
  | engineCreated
  | exitProcess (a : ExitArg)
  deriving Repr, DecidableEq

/-- Outcome of one call of the external engine `vault_execute(data, pk)`:
either the triple `(ct, pqc_ct, ref)` or a raised exception with message `e`. -/
inductive VaultOutcome where
  | ok (ct pqc_ct : List Nat) (ref : String)
  | err (e : String)
  deriving Repr, DecidableEq

/-- The dictionary returned by a successful `execute_vault`:
`\x7b"status": "SUCCESS", "payload": ct, "audit_ref": ref\x7d`. -/
structure VaultReturn where
  status : String
  payload : List Nat
  audit_ref : String
  deriving Repr, DecidableEq

/-- The heartbeat payload dictionary built by `emit_heartbeat`
(keys `node`, `status`, `anomalies`, `ts`). -/
structure HeartbeatRecord where
  node : String
  status : String
  anomalies : Nat
  ts : String
  deriving Repr, DecidableEq

/-- Python dict lookup on an association list (first binding wins). -/
def dictLookup (m : List (String × String)) (k : String) : Option String :=
  (m.find? (fun p => p.1 = k)).map (fun p => p.2)

namespace NebulaConfig

/-- `NebulaConfig.VERSION`. -/
def VERSION : String := "15.3.0-FREE"

/-- `NebulaConfig.HEARTBEAT_INTERVAL`. -/
def HEARTBEAT_INTERVAL : Nat := 30

/-- `NebulaConfig.MAX_ANOMALY_SCORE`. -/
def MAX_ANOMALY_SCORE : Nat := 5

/-- `NebulaConfig.REQUIRED_KEYS`. -/
def REQUIRED_KEYS : List String := ["node_id", "hw_id"]

/-- `NebulaConfig.DEFAULTS`. -/
def DEFAULTS : List (String × String) :=
  [("audit_log", "nebula_audit.log"),
   ("heartbeat_url", "https://api.nebula-hq.com/v1/heartbeat")]

end NebulaConfig

/-- The mutable attributes of a `NebulaPrime` instance.  `engine = true` means
the attribute `self.engine` (the vault core handle) exists. -/
structure NebulaState where
  config : List (String × String)
  is_active : Bool
  anomaly_count : Nat
  engine : Bool
  deriving Repr, DecidableEq

/-- Constructor failure: `exit(1)` on a config error, or the exception the
`SovereignEngine` constructor raised propagating out of `__init__`. -/
inductive InitError where
  | configExit (a : ExitArg)
  | engineRaise
  deriving Repr, DecidableEq

/-- `NebulaPrime.__init__` after the JSON source has been read into the raw
mapping `raw`: merge over defaults (`\x7b**DEFAULTS, **raw\x7d`, supplied values
win), validate `REQUIRED_KEYS`, then create the engine; `engineOk` says whether
the external `SovereignEngine` constructor succeeds.  Returns the event trace
and the constructed state or the failure. -/
def initNebula (raw : List (String × String)) (engineOk : Bool) :
    List Event × Except InitError NebulaState :=
  if NebulaConfig.REQUIRED_KEYS.filter
      (fun k => (dictLookup (raw ++ NebulaConfig.DEFAULTS) k).isNone) ≠ [] then
    ([Event.printFatal "FATAL: Missing mandatory config keys",
      Event.exitProcess (ExitArg.code 1)],
     Except.error (InitError.configExit (ExitArg.code 1)))
  else if engineOk then
    ([Event.engineCreated,
      Event.logInfo ("NebulaFree Node Online. Version: " ++ NebulaConfig.VERSION)],
     Except.ok { config := raw ++ NebulaConfig.DEFAULTS, is_active := true,
                 anomaly_count := 0, engine := true })
  else
    ([], Except.error InitError.engineRaise)

/-- The critical log message of `_kill_switch`. -/
def killMsg : String := "EMERGENCY: Max anomalies reached. Shutting down."

/-- The warning message logged on an execution anomaly: current count over
the threshold, then the exception text. -/
def warnMsg (n : Nat) (e : String) : String :=
  "Anomaly " ++ toString n ++ "/" ++ toString NebulaConfig.MAX_ANOMALY_SCORE ++ ": " ++ e

/-- `NebulaPrime._kill_switch`: critical log, `is_active = False`,
`del self.engine`, `self.config.clear()`, `gc.collect()`, `exit("NODE_LOCKED")`.
Returns the final state, the event trace in statement order, and the exit
argument. -/
def kill_switch (s : NebulaState) : NebulaState × List Event × ExitArg :=
  ({ s with is_active := false, engine := false, config := [] },
   [Event.logCritical killMsg, Event.setInactive, Event.releaseEngine,
    Event.clearConfig, Event.gcCollect, Event.exitProcess (ExitArg.msg "NODE_LOCKED")],
   ExitArg.msg "NODE_LOCKED")

/-- `NebulaPrime.execute_vault(data, pk)` with the external engine injected as
`vault`.  Returns the new state, the value returned to the caller (`none` is
Python `None`, the "unavailable" result), the event trace, and `some a` when
the call terminated the process via `exit a` instead of returning. -/
def execute_vault (s : NebulaState) (vault : List Nat → List Nat → VaultOutcome)
    (data pk : List Nat) :
    NebulaState × Option VaultReturn × List Event × Option ExitArg :=
  if s.is_active = false then (s, none, [], none)
  else
    match vault data pk with
    | VaultOutcome.ok ct _pqc ref =>
        (s, some { status := "SUCCESS", payload := ct, audit_ref := ref },
         [Event.logInfo ("Vault Success | Ref: " ++ ref.take 12)], none)
    | VaultOutcome.err e =>
        let s1 := { s with anomaly_count := s.anomaly_count + 1 }
        let w := Event.logWarning (warnMsg s1.anomaly_count e)
        if NebulaConfig.MAX_ANOMALY_SCORE ≤ s1.anomaly_count then
          let k := kill_switch s1
          (k.1, none, w :: k.2.1, some k.2.2)
        else
          (s1, none, [w], none)

/-- `NebulaPrime.emit_heartbeat` at wall-clock time `now`: builds the payload
(dict access `config["node_id"]` first, then the log line reads
`config["heartbeat_url"]`), logs, and returns `True`.  A missing key raises
`KeyError`, modeled as `none` in the second component; the state is returned
unchanged in all cases (the method assigns no attribute). -/
def emit_heartbeat (s : NebulaState) (now : String) :
    NebulaState × Option (HeartbeatRecord × Bool) × List Event :=
  match dictLookup s.config "node_id" with
  | none => (s, none, [])
  | some nid =>
    let payload : HeartbeatRecord :=
      { node := nid,
        status := if s.is_active then "ACTIVE" else "COMPROMISED",
        anomalies := s.anomaly_count,
        ts := now }
    match dictLookup s.config "heartbeat_url" with
    | none => (s, none, [])
    | some url =>
        (s, some (payload, true),
         [Event.logInfo ("HEARTBEAT -> Sending telemetry to " ++ url)])

/-- How a bounded run of `run_forever` ends: `normal` is an ordinary return
from the method (ordinary process status), `crashed` is an escaped `KeyError`
from `emit_heartbeat` (never happens on reachable states). -/
inductive RunResult where
  | normal
  | crashed
  deriving Repr, DecidableEq

/-- `NebulaPrime.run_forever` body under a schedule in which the operator
interrupt (`KeyboardInterrupt`) arrives during the sleep of iteration `k`
(0-based): each iteration emits a heartbeat then sleeps; the interrupt is
caught, logged, and sets `is_active = False`.  If `is_active` is already false
the loop exits at once and the method returns normally. -/
def run_loop (now : String) : Nat → NebulaState → NebulaState × List Event × RunResult
  | 0, s =>
    if s.is_active = false then (s, [], RunResult.normal)
    else
      let h := emit_heartbeat s now
      match h.2.1 with
      | none => (h.1, h.2.2, RunResult.crashed)
      | some _ =>
          ({ h.1 with is_active := false },
           h.2.2 ++ [Event.logInfo "System shutdown signal received."],
           RunResult.normal)
  | k + 1, s =>
    if s.is_active = false then (s, [], RunResult.normal)
    else
      let h := emit_heartbeat s now
      match h.2.1 with
      | none => (h.1, h.2.2, RunResult.crashed)
      | some _ =>
          let r := run_loop now k h.1
          (r.1, h.2.2 ++ r.2.1, r.2.2)

/-- `NebulaPrime.run_forever` entry point: logs the entering message then runs
the loop with the interrupt scheduled at iteration `k`. -/
def run_forever (s : NebulaState) (now : String) (k : Nat) :
    NebulaState × List Event × RunResult :=
  let r := run_loop now k s
  (r.1, Event.logInfo "Entering continuous operational mode..." :: r.2.1, r.2.2)

/-- A sequence of `n` consecutive `execute_vault` calls on a fixed failing (or
arbitrary) engine; stops early if some call terminates the process, reporting
`true` in the second component. -/
def failSeq (vault : List Nat → List Nat → VaultOutcome) (data pk : List Nat) :
    Nat → NebulaState → NebulaState × Bool
  | 0, s => (s, false)
  | n + 1, s =>
    let r := execute_vault s vault data pk
    match r.2.2.2 with
    | some _ => (r.1, true)
    | none => failSeq vault data pk n r.1

/-- In-process reachable supervisor states: a successfully constructed node,
closed under `execute_vault` calls that return (do not exit the process),
heartbeat emissions, and the operator interrupt caught in `run_forever`.
States at which the kill switch has fired are not included: the process has
exited there. -/
inductive Reachable : NebulaState → Prop where
  | init (raw : List (String × String)) (engineOk : Bool) (tr : List Event)
      (s : NebulaState) :
      initNebula raw engineOk = (tr, Except.ok s) → Reachable s
  | exec (s s' : NebulaState) (vault : List Nat → List Nat → VaultOutcome)
      (data pk : List Nat) (v : Option VaultReturn) (tr : List Event) :
      Reachable s → execute_vault s vault data pk = (s', v, tr, none) →
      Reachable s'
  | heartbeat (s : NebulaState) (now : String) :
      Reachable s → Reachable (emit_heartbeat s now).1
  | interrupt (s : NebulaState) :
      Reachable s → s.is_active = true → Reachable { s with is_active := false }

/-- The example free-node configuration written by the script entry point. -/
def rawCfg : List (String × String) :=
  [("node_id", "FREE-01"), ("hw_id", "FREE-HW-001")]

/-- The supervisor state right after a successful construction from `rawCfg`. -/
def s_init : NebulaState :=
  { config := rawCfg ++ NebulaConfig.DEFAULTS, is_active := true,
    anomaly_count := 0, engine := true }

/-- A deterministic always-failing engine stub. -/
def failVault : List Nat → List Nat → VaultOutcome :=
  fun _ _ => VaultOutcome.err "engine failure"

/-- A deterministic always-succeeding engine stub. -/
def okVault : List Nat → List Nat → VaultOutcome :=
  fun data pk => VaultOutcome.ok (data ++ pk) [0] "REF-0123456789ABCDEF"

theorem initNebula_rawCfg : initNebula rawCfg true =
    ([Event.engineCreated,
      Event.logInfo ("NebulaFree Node Online. Version: " ++ NebulaConfig.VERSION)],
     Except.ok s_init) := by
  rfl

theorem emit_heartbeat_fst (s : NebulaState) (now : String) :
    (emit_heartbeat s now).1 = s := by
  unfold emit_heartbeat
  cases h1 : dictLookup s.config "node_id" with
  | none => rfl
  | some nid =>
    cases h2 : dictLookup s.config "heartbeat_url" with
    | none => rfl
    | some url => rfl

theorem dictLookup_append (xs ys : List (String × String)) (k : String) :
    dictLookup (xs ++ ys) k = (dictLookup xs k).or (dictLookup ys k) := by
  unfold dictLookup
  rw [List.find?_append]
  cases List.find? (fun p => p.1 = k) xs <;> rfl

theorem initNebula_ok (raw : List (String × String)) (engineOk : Bool)
    (tr : List Event) (s : NebulaState)
    (h : initNebula raw engineOk = (tr, Except.ok s)) :
    s = { config := raw ++ NebulaConfig.DEFAULTS, is_active := true,
          anomaly_count := 0, engine := true } ∧
    (dictLookup (raw ++ NebulaConfig.DEFAULTS) "node_id").isSome ∧
    (dictLookup (raw ++ NebulaConfig.DEFAULTS) "heartbeat_url").isSome := by
  by_cases hm : NebulaConfig.REQUIRED_KEYS.filter
      (fun k => (dictLookup (raw ++ NebulaConfig.DEFAULTS) k).isNone) = []
  · unfold initNebula at h
    rw [if_neg (not_not_intro hm)] at h
    cases hE : engineOk <;> rw [hE] at h
    · simp at h
    · simp only [if_true, Prod.mk.injEq, Except.ok.injEq] at h
      refine ⟨h.2.symm, ?_, ?_⟩
      · have := List.filter_eq_nil_iff.mp hm "node_id"
          (by simp [NebulaConfig.REQUIRED_KEYS])
        simpa [Option.isSome_iff_ne_none] using this
      · rw [dictLookup_append]
        cases hx : dictLookup raw "heartbeat_url" <;>
          simp [hx, NebulaConfig.DEFAULTS, dictLookup, List.find?]
  · unfold initNebula at h
    rw [if_pos hm] at h
    simp at h

/-- Recognizes a process-exit event. -/
def isExitEvent : Event → Bool
  | Event.exitProcess _ => true
  | _ => false

/-- Recognizes a critical log event. -/
def isCriticalEvent : Event → Bool
  | Event.logCritical _ => true
  | _ => false

theorem execute_vault_inactive (s : NebulaState)
    (vault : List Nat → List Nat → VaultOutcome) (data pk : List Nat)
    (ha : s.is_active = false) :
    execute_vault s vault data pk = (s, none, [], none) := by
  unfold execute_vault
  rw [if_pos ha]

theorem execute_vault_ok (s : NebulaState)
    (vault : List Nat → List Nat → VaultOutcome) (data pk : List Nat)
    (ct pqc : List Nat) (ref : String) (ha : s.is_active = true)
    (hv : vault data pk = VaultOutcome.ok ct pqc ref) :
    execute_vault s vault data pk =
      (s, some { status := "SUCCESS", payload := ct, audit_ref := ref },
       [Event.logInfo ("Vault Success | Ref: " ++ ref.take 12)], none) := by
  unfold execute_vault
  rw [if_neg (by simp [ha]), hv]

theorem execute_vault_err_low (s : NebulaState)
    (vault : List Nat → List Nat → VaultOutcome) (data pk : List Nat)
    (e : String) (ha : s.is_active = true)
    (hv : vault data pk = VaultOutcome.err e)
    (hlt : s.anomaly_count + 1 < NebulaConfig.MAX_ANOMALY_SCORE) :
    execute_vault s vault data pk =
      ({ s with anomaly_count := s.anomaly_count + 1 }, none,
       [Event.logWarning (warnMsg (s.anomaly_count + 1) e)], none) := by
  unfold execute_vault
  rw [if_neg (by simp [ha]), hv]
  simp only [if_neg (Nat.not_le.mpr hlt)]

theorem execute_vault_err_kill (s : NebulaState)
    (vault : List Nat → List Nat → VaultOutcome) (data pk : List Nat)
    (e : String) (ha : s.is_active = true)
    (hv : vault data pk = VaultOutcome.err e)
    (hge : NebulaConfig.MAX_ANOMALY_SCORE ≤ s.anomaly_count + 1) :
    execute_vault s vault data pk =
      ({ config := [], is_active := false,
         anomaly_count := s.anomaly_count + 1, engine := false },
       none,
       [Event.logWarning (warnMsg (s.anomaly_count + 1) e),
        Event.logCritical killMsg, Event.setInactive, Event.releaseEngine,
        Event.clearConfig, Event.gcCollect,
        Event.exitProcess (ExitArg.msg "NODE_LOCKED")],
       some (ExitArg.msg "NODE_LOCKED")) := by
  unfold execute_vault
  rw [if_neg (by simp [ha]), hv]
  simp only [if_pos hge, kill_switch]

theorem execute_vault_no_exit_frame (s : NebulaState)
    (vault : List Nat → List Nat → VaultOutcome) (data pk : List Nat)
    (s' : NebulaState) (v : Option VaultReturn) (tr : List Event)
    (h : execute_vault s vault data pk = (s', v, tr, none)) :
    s'.config = s.config ∧ s'.engine = s.engine ∧ s'.is_active = s.is_active := by
  cases ha : s.is_active with
  | false =>
    rw [execute_vault_inactive s vault data pk ha] at h
    simp only [Prod.mk.injEq] at h
    obtain ⟨rfl, -, -, -⟩ := h
    exact ⟨rfl, rfl, ha⟩
  | true =>
    cases hv : vault data pk with
    | ok ct pqc ref =>
      rw [execute_vault_ok s vault data pk ct pqc ref ha hv] at h
      simp only [Prod.mk.injEq] at h
      obtain ⟨rfl, -, -, -⟩ := h
      exact ⟨rfl, rfl, ha⟩
    | err e =>
      by_cases hge : NebulaConfig.MAX_ANOMALY_SCORE ≤ s.anomaly_count + 1
      · rw [execute_vault_err_kill s vault data pk e ha hv hge] at h
        simp at h
      · rw [execute_vault_err_low s vault data pk e ha hv (Nat.not_le.mp hge)] at h
        simp only [Prod.mk.injEq] at h
        obtain ⟨rfl, -, -, -⟩ := h
        exact ⟨rfl, rfl, ha⟩

theorem reachable_inv (s : NebulaState) (h : Reachable s) :
    (dictLookup s.config "node_id").isSome ∧
    (dictLookup s.config "heartbeat_url").isSome ∧
    (s.is_active = true → s.engine = true) := by
  induction h with
  | init raw engineOk tr s0 h0 =>
    obtain ⟨hs, h1, h2⟩ := initNebula_ok raw engineOk tr s0 h0
    subst hs
    exact ⟨h1, h2, fun _ => rfl⟩
  | exec s0 s' vault data pk v tr hre hstep ih =>
    obtain ⟨hc, he, hia⟩ := execute_vault_no_exit_frame s0 vault data pk s' v tr hstep
    refine ⟨?_, ?_, ?_⟩
    · rw [hc]; exact ih.1
    · rw [hc]; exact ih.2.1
    · intro ha
      rw [hia] at ha
      rw [he]
      exact ih.2.2 ha
  | heartbeat s0 now hre ih =>
    rw [emit_heartbeat_fst]
    exact ih
  | interrupt s0 hre ha ih =>
    exact ⟨ih.1, ih.2.1, fun hcontra => by simp at hcontra⟩

theorem emit_heartbeat_eq (s : NebulaState) (now nid url : String)
    (hn : dictLookup s.config "node_id" = some nid)
    (hu : dictLookup s.config "heartbeat_url" = some url) :
    emit_heartbeat s now =
      (s, some ({ node := nid,
                  status := if s.is_active then "ACTIVE" else "COMPROMISED",
                  anomalies := s.anomaly_count, ts := now }, true),
       [Event.logInfo ("HEARTBEAT -> Sending telemetry to " ++ url)]) := by
  unfold emit_heartbeat
  rw [hn, hu]

theorem failSeq_low (vault : List Nat → List Nat → VaultOutcome)
    (data pk : List Nat) (e : String)
    (hv : vault data pk = VaultOutcome.err e) (n : Nat) :
    ∀ s : NebulaState, s.is_active = true →
      s.anomaly_count + n < NebulaConfig.MAX_ANOMALY_SCORE →
      failSeq vault data pk n s =
        ({ s with anomaly_count := s.anomaly_count + n }, false) := by
  induction n with
  | zero =>
    intro s ha hlt
    rfl
  | succ n ih =>
    intro s ha hlt
    have hstep := execute_vault_err_low s vault data pk e ha hv (by omega)
    unfold failSeq
    rw [hstep]
    simp only []
    have hrec := ih { s with anomaly_count := s.anomaly_count + 1 } ha (by
      show s.anomaly_count + 1 + n < NebulaConfig.MAX_ANOMALY_SCORE
      omega)
    rw [hrec]
    have : s.anomaly_count + 1 + n = s.anomaly_count + (n + 1) := by omega
    rw [this]

theorem execute_vault_err_payload (s : NebulaState)
    (vault : List Nat → List Nat → VaultOutcome) (data pk : List Nat)
    (e : String) (hv : vault data pk = VaultOutcome.err e) :
    (execute_vault s vault data pk).2.1 = none := by
  cases ha : s.is_active with
  | false => rw [execute_vault_inactive s vault data pk ha]
  | true =>
    by_cases hge : NebulaConfig.MAX_ANOMALY_SCORE ≤ s.anomaly_count + 1
    · rw [execute_vault_err_kill s vault data pk e ha hv hge]
    · rw [execute_vault_err_low s vault data pk e ha hv (Nat.not_le.mp hge)]

theorem run_loop_interrupt (now : String) (k : Nat) :
    ∀ s : NebulaState, s.is_active = true →
      (dictLookup s.config "node_id").isSome →
      (dictLookup s.config "heartbeat_url").isSome →
      ∃ tr, run_loop now k s = ({ s with is_active := false }, tr, RunResult.normal) ∧
        ∀ ev ∈ tr, ∃ m, ev = Event.logInfo m := by
  induction k with
  | zero =>
    intro s ha hn hu
    obtain ⟨nid, hnid⟩ := Option.isSome_iff_exists.mp hn
    obtain ⟨url, hurl⟩ := Option.isSome_iff_exists.mp hu
    unfold run_loop
    rw [ha]
    rw [emit_heartbeat_eq s now nid url hnid hurl]
    simp only [Bool.true_eq_false, if_false]
    refine ⟨[Event.logInfo ("HEARTBEAT -> Sending telemetry to " ++ url),
             Event.logInfo "System shutdown signal received."], rfl, ?_⟩
    intro ev hev
    simp only [List.mem_cons, List.not_mem_nil, or_false] at hev
    rcases hev with rfl | rfl
    · exact ⟨_, rfl⟩
    · exact ⟨_, rfl⟩
  | succ k ih =>
    intro s ha hn hu
    obtain ⟨nid, hnid⟩ := Option.isSome_iff_exists.mp hn
    obtain ⟨url, hurl⟩ := Option.isSome_iff_exists.mp hu
    obtain ⟨tr, htr, hall⟩ := ih s ha hn hu
    unfold run_loop
    rw [ha]
    rw [emit_heartbeat_eq s now nid url hnid hurl]
    simp only [Bool.true_eq_false, if_false]
    refine ⟨Event.logInfo ("HEARTBEAT -> Sending telemetry to " ++ url) :: tr, ?_, ?_⟩
    · rw [htr]
      rfl
    · intro ev hev
      simp only [List.mem_cons] at hev
      rcases hev with rfl | hmem
      · exact ⟨_, rfl⟩
      · exact hall ev hmem

/-- C1: in the ACTIVE state, the `execute_vault` failure whose increment makes
`anomaly_count` reach `MAX_ANOMALY_SCORE` (5) triggers exactly one lock
transition, whose side effects occur in this order: the anomaly warning, the
critical log message, `is_active` set to false (the LOCKED lifecycle state),
release of the vault core handle, clearing of the in-memory configuration, and
process termination via `exit("NODE_LOCKED")` — an exit argument distinct from
ordinary success (status 0) and ordinary failure (`exit(1)`). -/
theorem C1_threshold_failure_locks_in_order (s : NebulaState)
    (vault : List Nat → List Nat → VaultOutcome) (data pk : List Nat)
    (e : String) (ha : s.is_active = true)
    (hc : s.anomaly_count + 1 = NebulaConfig.MAX_ANOMALY_SCORE)
    (hv : vault data pk = VaultOutcome.err e) :
    execute_vault s vault data pk =
      ({ config := [], is_active := false,
         anomaly_count := NebulaConfig.MAX_ANOMALY_SCORE, engine := false },
       none,
       [Event.logWarning (warnMsg NebulaConfig.MAX_ANOMALY_SCORE e),
        Event.logCritical killMsg, Event.setInactive, Event.releaseEngine,
        Event.clearConfig, Event.gcCollect,
        Event.exitProcess (ExitArg.msg "NODE_LOCKED")],
       some (ExitArg.msg "NODE_LOCKED")) ∧
    (execute_vault s vault data pk).2.2.1.countP isExitEvent = 1 ∧
    (execute_vault s vault data pk).2.2.1.countP isCriticalEvent = 1 ∧
    ExitArg.msg "NODE_LOCKED" ≠ ExitArg.code 0 ∧
    ExitArg.msg "NODE_LOCKED" ≠ ExitArg.code 1 := by
  have h := execute_vault_err_kill s vault data pk e ha hv (by omega)
  rw [hc] at h
  refine ⟨h, ?_, ?_, by simp, by simp⟩
  · rw [h]
    rfl
  · rw [h]
    rfl

/-- C1 witness: the concrete state with four prior anomalies, a failing
engine stub, and empty payloads. -/
theorem C1_witness :
    execute_vault { s_init with anomaly_count := 4 } failVault [] [] =
      ({ config := [], is_active := false,
         anomaly_count := NebulaConfig.MAX_ANOMALY_SCORE, engine := false },
       none,
       [Event.logWarning (warnMsg NebulaConfig.MAX_ANOMALY_SCORE "engine failure"),
        Event.logCritical killMsg, Event.setInactive, Event.releaseEngine,
        Event.clearConfig, Event.gcCollect,
        Event.exitProcess (ExitArg.msg "NODE_LOCKED")],
       some (ExitArg.msg "NODE_LOCKED")) ∧
    (execute_vault { s_init with anomaly_count := 4 } failVault [] []).2.2.1.countP
      isExitEvent = 1 ∧
    (execute_vault { s_init with anomaly_count := 4 } failVault [] []).2.2.1.countP
      isCriticalEvent = 1 ∧
    ExitArg.msg "NODE_LOCKED" ≠ ExitArg.code 0 ∧
    ExitArg.msg "NODE_LOCKED" ≠ ExitArg.code 1 :=
  C1_threshold_failure_locks_in_order { s_init with anomaly_count := 4 }
    failVault [] [] "engine failure" rfl rfl rfl

/-- C2 counterexample: at a concrete ACTIVE state with four prior anomalies,
the failing call does not return the "unavailable" result to the caller — the
kill switch terminates the process out of the handler (`exit("NODE_LOCKED")`),
so "returns unavailable (no payload) to the caller" is false for the
threshold-reaching failure the claim also quantifies over. -/
theorem C2_counterexample :
    (execute_vault { s_init with anomaly_count := 4 } failVault [] []).2.2.2 =
      some (ExitArg.msg "NODE_LOCKED") := by
  rfl

/-- C2 (amended): every failing call in the ACTIVE state increments
`anomaly_count` by exactly 1, logs a warning whose text places the current
anomaly count against the configured threshold, never yields a payload, and
never re-raises the vault error to the caller; when the incremented count is
still below `MAX_ANOMALY_SCORE` the call returns the "unavailable" result
(`None`) to the caller, while the call whose increment reaches the threshold
triggers the kill switch and terminates the process instead of returning. -/
theorem C2_failure_absorbed_amended (s : NebulaState)
    (vault : List Nat → List Nat → VaultOutcome) (data pk : List Nat)
    (e : String) (ha : s.is_active = true)
    (hv : vault data pk = VaultOutcome.err e) :
    (execute_vault s vault data pk).1.anomaly_count = s.anomaly_count + 1 ∧
    (execute_vault s vault data pk).2.2.1.head? =
      some (Event.logWarning (warnMsg (s.anomaly_count + 1) e)) ∧
    warnMsg (s.anomaly_count + 1) e =
      "Anomaly " ++ toString (s.anomaly_count + 1) ++ "/" ++
        toString NebulaConfig.MAX_ANOMALY_SCORE ++ ": " ++ e ∧
    (execute_vault s vault data pk).2.1 = none ∧
    (s.anomaly_count + 1 < NebulaConfig.MAX_ANOMALY_SCORE →
      execute_vault s vault data pk =
        ({ s with anomaly_count := s.anomaly_count + 1 }, none,
         [Event.logWarning (warnMsg (s.anomaly_count + 1) e)], none)) ∧
    (NebulaConfig.MAX_ANOMALY_SCORE ≤ s.anomaly_count + 1 →
      (execute_vault s vault data pk).2.2.2 = some (ExitArg.msg "NODE_LOCKED")) := by
  by_cases hge : NebulaConfig.MAX_ANOMALY_SCORE ≤ s.anomaly_count + 1
  · have h := execute_vault_err_kill s vault data pk e ha hv hge
    rw [h]
    exact ⟨rfl, rfl, rfl, rfl, fun hlt => absurd hge (by omega), fun _ => rfl⟩
  · have h := execute_vault_err_low s vault data pk e ha hv (Nat.not_le.mp hge)
    rw [h]
    exact ⟨rfl, rfl, rfl, rfl, fun _ => rfl, fun hge2 => absurd hge2 hge⟩

/-- C2 witness: first failure on a fresh node increments the counter to 1 and
returns no payload. -/
theorem C2_witness :
    (execute_vault s_init failVault [] []).1.anomaly_count = 1 ∧
    (execute_vault s_init failVault [] []).2.1 = none :=
  ⟨(C2_failure_absorbed_amended s_init failVault [] [] "engine failure" rfl rfl).1,
   (C2_failure_absorbed_amended s_init failVault [] [] "engine failure" rfl rfl).2.2.2.1⟩

/-- C3: starting from a freshly constructed supervisor, any sequence of
`N < MAX_ANOMALY_SCORE` consecutive `execute_vault` failures leaves
`is_active` true (lifecycle ACTIVE) with `anomaly_count = N`, and no
intermediate failure triggers the lock transition (no call exits). -/
theorem C3_below_threshold_stays_active (raw : List (String × String))
    (engineOk : Bool) (tr : List Event) (s : NebulaState)
    (vault : List Nat → List Nat → VaultOutcome) (data pk : List Nat)
    (e : String) (n : Nat)
    (hinit : initNebula raw engineOk = (tr, Except.ok s))
    (hv : vault data pk = VaultOutcome.err e)
    (hn : n < NebulaConfig.MAX_ANOMALY_SCORE) :
    failSeq vault data pk n s = ({ s with anomaly_count := n }, false) ∧
    (failSeq vault data pk n s).1.is_active = true ∧
    (failSeq vault data pk n s).1.anomaly_count = n := by
  obtain ⟨hs, -, -⟩ := initNebula_ok raw engineOk tr s hinit
  have ha : s.is_active = true := by rw [hs]
  have hc : s.anomaly_count = 0 := by rw [hs]
  have h := failSeq_low vault data pk e hv n s ha (by omega)
  rw [hc, Nat.zero_add] at h
  refine ⟨h, ?_, ?_⟩
  · rw [h]
    exact ha
  · rw [h]

/-- C3 witness: four consecutive failures on the freshly constructed example
node end with `anomaly_count = 4`, still ACTIVE, no exit. -/
theorem C3_witness :
    failSeq failVault [] [] 4 s_init = ({ s_init with anomaly_count := 4 }, false) ∧
    (failSeq failVault [] [] 4 s_init).1.is_active = true ∧
    (failSeq failVault [] [] 4 s_init).1.anomaly_count = 4 :=
  C3_below_threshold_stays_active rawCfg true _ s_init failVault [] []
    "engine failure" 4 initNebula_rawCfg rfl (by decide)

/-- C4 counterexample: the operator-interrupt transition of `run_forever`
sets `is_active = False` without releasing the engine handle, so a reachable
state exists where the vault handle is present while the lifecycle state is no
longer ACTIVE — refuting "the handle exists if and only if the state is
ACTIVE" and its "operator shutdown releases the handle" part. -/
theorem C4_counterexample :
    Reachable { s_init with is_active := false } ∧
    ({ s_init with is_active := false } : NebulaState).engine = true ∧
    ({ s_init with is_active := false } : NebulaState).is_active = false ∧
    ¬(({ s_init with is_active := false } : NebulaState).engine = true ↔
      ({ s_init with is_active := false } : NebulaState).is_active = true) := by
  refine ⟨Reachable.interrupt s_init
    (Reachable.init rawCfg true _ s_init initNebula_rawCfg) rfl, rfl, rfl, ?_⟩
  intro hiff
  have := hiff.mp rfl
  simp at this

/-- C4 (amended): in every reachable state the vault handle exists whenever
the lifecycle state is ACTIVE, and the anomaly-lockout transition (the kill
switch) releases the handle while leaving ACTIVE; but the operator-shutdown
transition does not release the handle, so the converse direction fails. -/
theorem C4_handle_iff_active_amended :
    (∀ s : NebulaState, Reachable s → s.is_active = true → s.engine = true) ∧
    (∀ s : NebulaState, (kill_switch s).1.engine = false ∧
      (kill_switch s).1.is_active = false) :=
  ⟨fun s h ha => (reachable_inv s h).2.2 ha, fun _ => ⟨rfl, rfl⟩⟩

/-- C4 witness: the freshly constructed example node is ACTIVE with the
handle present, and the kill switch releases the handle. -/
theorem C4_witness :
    s_init.engine = true ∧ (kill_switch s_init).1.engine = false :=
  ⟨C4_handle_iff_active_amended.1 s_init
     (Reachable.init rawCfg true _ s_init initNebula_rawCfg) rfl,
   (C4_handle_iff_active_amended.2 s_init).1⟩

/-- C5: a successful vault call in the ACTIVE state returns the dictionary
exposing `status = "SUCCESS"`, the ciphertext payload and the audit reference,
and leaves the whole state — in particular `anomaly_count`, whatever its
prior value after earlier failures — unchanged. -/
theorem C5_success_preserves_state (s : NebulaState)
    (vault : List Nat → List Nat → VaultOutcome) (data pk ct pqc : List Nat)
    (ref : String) (ha : s.is_active = true)
    (hv : vault data pk = VaultOutcome.ok ct pqc ref) :
    execute_vault s vault data pk =
      (s, some { status := "SUCCESS", payload := ct, audit_ref := ref },
       [Event.logInfo ("Vault Success | Ref: " ++ ref.take 12)], none) ∧
    (execute_vault s vault data pk).1.anomaly_count = s.anomaly_count := by
  have h := execute_vault_ok s vault data pk ct pqc ref ha hv
  refine ⟨h, ?_⟩
  rw [h]

/-- C5 witness: a success after three prior failures keeps `anomaly_count`
at 3 and returns the stub's ciphertext and audit reference. -/
theorem C5_witness :
    execute_vault { s_init with anomaly_count := 3 } okVault [1] [2] =
      ({ s_init with anomaly_count := 3 },
       some { status := "SUCCESS", payload := [1, 2],
              audit_ref := "REF-0123456789ABCDEF" },
       [Event.logInfo ("Vault Success | Ref: " ++
          ("REF-0123456789ABCDEF" : String).take 12)], none) ∧
    (execute_vault { s_init with anomaly_count := 3 } okVault [1] [2]).1.anomaly_count =
      ({ s_init with anomaly_count := 3 } : NebulaState).anomaly_count :=
  C5_success_preserves_state { s_init with anomaly_count := 3 } okVault
    [1] [2] [1, 2] [0] "REF-0123456789ABCDEF" rfl rfl

/-- C6: for every raw configuration whose merge over the defaults is missing
`node_id` or `hw_id`, construction fails with the fatal configuration error
(`exit(1)` after the FATAL message) before any vault core handle is created
— whether or not the engine constructor would succeed — and no supervisor
state is ever produced. -/
theorem C6_missing_keys_fatal (raw : List (String × String)) (engineOk : Bool)
    (hmiss : dictLookup (raw ++ NebulaConfig.DEFAULTS) "node_id" = none ∨
             dictLookup (raw ++ NebulaConfig.DEFAULTS) "hw_id" = none) :
    initNebula raw engineOk =
      ([Event.printFatal "FATAL: Missing mandatory config keys",
        Event.exitProcess (ExitArg.code 1)],
       Except.error (InitError.configExit (ExitArg.code 1))) ∧
    Event.engineCreated ∉ (initNebula raw engineOk).1 ∧
    ∀ s : NebulaState, (initNebula raw engineOk).2 ≠ Except.ok s := by
  have hne : NebulaConfig.REQUIRED_KEYS.filter
      (fun k => (dictLookup (raw ++ NebulaConfig.DEFAULTS) k).isNone) ≠ [] := by
    rcases hmiss with h | h
    · simp [NebulaConfig.REQUIRED_KEYS, List.filter_cons, h]
    · cases hx : dictLookup (raw ++ NebulaConfig.DEFAULTS) "node_id" <;>
        simp [NebulaConfig.REQUIRED_KEYS, List.filter_cons, h, hx]
  have heq : initNebula raw engineOk =
      ([Event.printFatal "FATAL: Missing mandatory config keys",
        Event.exitProcess (ExitArg.code 1)],
       Except.error (InitError.configExit (ExitArg.code 1))) := by
    unfold initNebula
    rw [if_pos hne]
  refine ⟨heq, ?_, ?_⟩
  · rw [heq]
    simp
  · intro s
    rw [heq]
    simp

/-- C6 witness: a configuration supplying only `hw_id` is rejected with the
fatal configuration exit and no engine-creation event. -/
theorem C6_witness :
    initNebula [("hw_id", "HW-1")] true =
      ([Event.printFatal "FATAL: Missing mandatory config keys",
        Event.exitProcess (ExitArg.code 1)],
       Except.error (InitError.configExit (ExitArg.code 1))) ∧
    Event.engineCreated ∉ (initNebula [("hw_id", "HW-1")] true).1 ∧
    ∀ s : NebulaState, (initNebula [("hw_id", "HW-1")] true).2 ≠ Except.ok s :=
  C6_missing_keys_fatal [("hw_id", "HW-1")] true (Or.inl rfl)

/-- C7: whenever the configuration holds `node_id` and `heartbeat_url` (true
in every reachable state), the heartbeat record built by `emit_heartbeat` has
exactly the shape `\x7bnode, status, anomalies, ts\x7d`, with `node` the
configured `node_id`, `anomalies` the current anomaly counter, and `status`
derived from the lifecycle state: `"ACTIVE"` while active, the terminal label
`"COMPROMISED"` otherwise. -/
theorem C7_heartbeat_shape (s : NebulaState) (now nid url : String)
    (hn : dictLookup s.config "node_id" = some nid)
    (hu : dictLookup s.config "heartbeat_url" = some url) :
    emit_heartbeat s now =
      (s, some ({ node := nid,
                  status := if s.is_active then "ACTIVE" else "COMPROMISED",
                  anomalies := s.anomaly_count, ts := now }, true),
       [Event.logInfo ("HEARTBEAT -> Sending telemetry to " ++ url)]) :=
  emit_heartbeat_eq s now nid url hn hu

/-- C7 witness: the heartbeat of the freshly constructed example node. -/
theorem C7_witness :
    emit_heartbeat s_init "2026-01-01T00:00:00" =
      (s_init, some ({ node := "FREE-01", status := "ACTIVE", anomalies := 0,
                       ts := "2026-01-01T00:00:00" }, true),
       [Event.logInfo ("HEARTBEAT -> Sending telemetry to " ++
          "https://api.nebula-hq.com/v1/heartbeat")]) :=
  C7_heartbeat_shape s_init "2026-01-01T00:00:00" "FREE-01"
    "https://api.nebula-hq.com/v1/heartbeat" rfl rfl

/-- C8: for every ACTIVE state with a well-formed configuration (true in every
reachable state) and for every iteration `k` at which the operator interrupt
arrives during the inter-heartbeat wait, `run_forever` exits the loop without
ever invoking the kill-switch path (no critical log, no process-exit event in
its trace), returns normally (ordinary exit status, distinct from the
`"NODE_LOCKED"` lockout argument), and leaves the state equal to the input
with only `is_active` cleared — in particular `anomaly_count` and the engine
handle are unchanged. -/
theorem C8_interrupt_clean (s : NebulaState) (now : String) (k : Nat)
    (ha : s.is_active = true)
    (hn : (dictLookup s.config "node_id").isSome)
    (hu : (dictLookup s.config "heartbeat_url").isSome) :
    (∃ tr, run_forever s now k =
        ({ s with is_active := false }, tr, RunResult.normal) ∧
      (∀ a, Event.exitProcess a ∉ tr) ∧ (∀ m, Event.logCritical m ∉ tr)) ∧
    ({ s with is_active := false } : NebulaState).anomaly_count = s.anomaly_count ∧
    ({ s with is_active := false } : NebulaState).engine = s.engine ∧
    ExitArg.msg "NODE_LOCKED" ≠ ExitArg.code 0 := by
  obtain ⟨tr, htr, hall⟩ := run_loop_interrupt now k s ha hn hu
  refine ⟨⟨Event.logInfo "Entering continuous operational mode..." :: tr,
    ?_, ?_, ?_⟩, rfl, rfl, by simp⟩
  · unfold run_forever
    rw [htr]
  · intro a hmem
    rcases List.mem_cons.mp hmem with heq | hmem2
    · simp at heq
    · obtain ⟨m, hm⟩ := hall _ hmem2
      simp at hm
  · intro a hmem
    rcases List.mem_cons.mp hmem with heq | hmem2
    · simp at heq
    · obtain ⟨m, hm⟩ := hall _ hmem2
      simp at hm

/-- C8 witness: interrupt during the second sleep of the example node's loop:
the run ends normally with only the active flag cleared. -/
theorem C8_witness :
    (run_forever s_init "T0" 1).1 = { s_init with is_active := false } ∧
    (run_forever s_init "T0" 1).2.2 = RunResult.normal := by
  obtain ⟨⟨tr, htr, -, -⟩, -⟩ := C8_interrupt_clean s_init "T0" 1 rfl rfl rfl
  rw [htr]
  exact ⟨rfl, rfl⟩

/-- C9: the supervisor adds no state dependence or nondeterminism to the
result: two consecutive `execute_vault` calls with identical `data`/`pk`
against the same deterministic vault function, the first made in the ACTIVE
state and returning (not exiting), produce identical returned values — in
particular identical ciphertext/audit_ref pairs on success. -/
theorem C9_idempotent_result (s : NebulaState)
    (vault : List Nat → List Nat → VaultOutcome) (data pk : List Nat)
    (ha : s.is_active = true)
    (_hnoexit : (execute_vault s vault data pk).2.2.2 = none) :
    (execute_vault (execute_vault s vault data pk).1 vault data pk).2.1 =
      (execute_vault s vault data pk).2.1 := by
  cases hv : vault data pk with
  | ok ct pqc ref =>
    have h := execute_vault_ok s vault data pk ct pqc ref ha hv
    have h1 : (execute_vault s vault data pk).1 = s := by rw [h]
    rw [h1]
  | err e =>
    rw [execute_vault_err_payload (execute_vault s vault data pk).1 vault data pk e hv,
        execute_vault_err_payload s vault data pk e hv]

/-- C9 witness: two identical calls on the fresh example node with the
deterministic success stub return the same value. -/
theorem C9_witness :
    (execute_vault (execute_vault s_init okVault [1] [2]).1 okVault [1] [2]).2.1 =
      (execute_vault s_init okVault [1] [2]).2.1 :=
  C9_idempotent_result s_init okVault [1] [2] rfl rfl

/-- C10: on every reachable supervisor state — active or not —
`emit_heartbeat` leaves the entire state (configuration, active flag, anomaly
counter, engine handle) unchanged and returns `True`. -/
theorem C10_heartbeat_frame (s : NebulaState) (now : String) (h : Reachable s) :
    (emit_heartbeat s now).1 = s ∧
    (emit_heartbeat s now).2.1.map (fun p => p.2) = some true := by
  refine ⟨emit_heartbeat_fst s now, ?_⟩
  obtain ⟨h1, h2, -⟩ := reachable_inv s h
  obtain ⟨nid, hn⟩ := Option.isSome_iff_exists.mp h1
  obtain ⟨url, hu⟩ := Option.isSome_iff_exists.mp h2
  rw [emit_heartbeat_eq s now nid url hn hu]
  rfl

/-- C10 witness: heartbeat on the freshly constructed example node. -/
theorem C10_witness :
    (emit_heartbeat s_init "T1").1 = s_init ∧
    (emit_heartbeat s_init "T1").2.1.map (fun p => p.2) = some true :=
  C10_heartbeat_frame s_init "T1"
    (Reachable.init rawCfg true _ s_init initNebula_rawCfg)
